import Mathlib

/-!
Verification of the factory evaluation pipeline: a shallow embedding of the
deterministic scorers, the judged-scorer extraction logic, the diff
inspector, the CI hook, and the regression replayer, with theorems settling
the specified behavioural claims.

Scores are modelled as rationals (the Python float literals 1.0, 0.8, 0.7,
0.5, 0.4, 0.3, 0.2, 0.15, 0.1 are all exactly representable, and the only
arithmetic performed on them — multiplication by 0.3 and 0.5 — is exact in
binary floating point as well, so the rational model is faithful).
-/

namespace Factory

/-! ## Deterministic scorer (post_run_eval.py, regression_eval.py, ci_eval.py) -/

/-- `build_score = 1.0 if status == "success" else 0.0` (post_run_eval.py line 41). -/
def build_score (status : String) : ℚ :=
  if status = "success" then 1.0 else 0.0

/-- Efficiency step function over the iteration count (post_run_eval.py
lines 44-51).  The Python value is an `int`, so the argument is `ℤ`. -/
def efficiency (iters : ℤ) : ℚ :=
  if iters ≤ 1 then 1.0
  else if iters ≤ 2 then 0.8
  else if iters ≤ 4 then 0.5
  else 0.2

/-- The regression replayer's copy of the efficiency step function
(regression_eval.py lines 114-121). -/
def eff (new_iters : ℤ) : ℚ :=
  if new_iters ≤ 1 then 1.0
  else if new_iters ≤ 2 then 0.8
  else if new_iters ≤ 4 then 0.5
  else 0.2

/-- Diff-precision step function over total changed lines
(post_run_eval.py lines 75-82).  Counts come from regex digit groups, so
the argument is `ℕ`. -/
def diff_score (diff_lines : ℕ) : ℚ :=
  if diff_lines ≤ 50 then 1.0
  else if diff_lines ≤ 150 then 0.7
  else if diff_lines ≤ 500 then 0.4
  else 0.1

/-- The CI hook's copy of the diff-precision step function
(ci_eval.py lines 71-79). -/
def diff_precision (total_diff : ℕ) : ℚ :=
  if total_diff ≤ 50 then 1.0
  else if total_diff ≤ 150 then 0.7
  else if total_diff ≤ 500 then 0.4
  else 0.1

/-- C2: diff_precision is a step function of total = insertions + deletions:
1.0 for total ≤ 50, 0.7 for 50 < total ≤ 150, 0.4 for 150 < total ≤ 500,
0.1 for total > 500, stepping down exactly at the 50/51, 150/151 and 500/501
boundaries, and identical in the post-run scorer and the CI hook. -/
theorem diff_precision_step_function : ∀ ins del : ℕ,
    (ins + del ≤ 50 → diff_score (ins + del) = 1.0) ∧
    (50 < ins + del → ins + del ≤ 150 → diff_score (ins + del) = 0.7) ∧
    (150 < ins + del → ins + del ≤ 500 → diff_score (ins + del) = 0.4) ∧
    (500 < ins + del → diff_score (ins + del) = 0.1) ∧
    diff_score (ins + del) = diff_precision (ins + del) ∧
    (diff_score 50 = 1.0 ∧ diff_score 51 = 0.7 ∧ diff_score 150 = 0.7 ∧
     diff_score 151 = 0.4 ∧ diff_score 500 = 0.4 ∧ diff_score 501 = 0.1) := by
  intro ins del
  refine ⟨fun h => ?_, fun h1 h2 => ?_, fun h1 h2 => ?_, fun h => ?_, rfl,
    by norm_num [diff_score], by norm_num [diff_score], by norm_num [diff_score],
    by norm_num [diff_score], by norm_num [diff_score], by norm_num [diff_score]⟩ <;>
    · unfold diff_score
      split_ifs <;> first | rfl | (exfalso; omega)

/-- Witness for C2 at insertions = 10, deletions = 5. -/
theorem diff_precision_step_function_witness :
    diff_score (10 + 5) = 1.0 ∧ diff_score (100 + 51) = 0.4 :=
  ⟨(diff_precision_step_function 10 5).1 (by norm_num),
   (diff_precision_step_function 100 51).2.2.1 (by norm_num) (by norm_num)⟩

/-- C3: for every non-negative iteration count, efficiency is 1.0 for
iterations ≤ 1, 0.8 for iterations = 2, 0.5 for 3 ≤ iterations ≤ 4 and 0.2
otherwise; it is monotonically non-increasing and takes values only in
{1.0, 0.8, 0.5, 0.2}; the post-run scorer and the regression replayer
compute it identically. -/
theorem efficiency_step_monotone : ∀ i : ℤ, 0 ≤ i →
    ((i ≤ 1 → efficiency i = 1.0) ∧
     (i = 2 → efficiency i = 0.8) ∧
     (3 ≤ i → i ≤ 4 → efficiency i = 0.5) ∧
     (5 ≤ i → efficiency i = 0.2)) ∧
    (∀ j : ℤ, i ≤ j → efficiency j ≤ efficiency i) ∧
    (efficiency i = 1.0 ∨ efficiency i = 0.8 ∨ efficiency i = 0.5 ∨
     efficiency i = 0.2) ∧
    efficiency i = eff i := by
  intro i _
  refine ⟨⟨fun h => ?_, fun h => ?_, fun h1 h2 => ?_, fun h => ?_⟩,
    fun j hij => ?_, ?_, rfl⟩ <;>
    · unfold efficiency
      split_ifs <;> first | rfl | (exfalso; omega) | norm_num

/-- Witness for C3 at iterations = 3. -/
theorem efficiency_step_monotone_witness :
    efficiency 3 = 0.5 ∧ efficiency 2 = 0.8 :=
  ⟨((efficiency_step_monotone 3 (by norm_num)).1.2.2.1 (by norm_num) (by norm_num)),
   ((efficiency_step_monotone 2 (by norm_num)).1.2.1 rfl)⟩

/-! ## Integrity scorer (post_run_eval.py lines 84-89)

The two regexes are embedded as recursive character scanners over the full
diff text.  The Python patterns run with `re.MULTILINE`, so the anchor
matches at the start of the text or right after a newline; `.` does not
cross a newline; the whitespace class after `//` is modelled over the ASCII
whitespace characters. -/

/-- The ASCII whitespace characters matched by the regex class after the
suppression marker's slashes. -/
def isPyWs (c : Char) : Bool :=
  c == ' ' || c == '\t' || c == '\n' || c == '\r' ||
  c == Char.ofNat 11 || c == Char.ofNat 12

/-- Alternatives of the suppression-directive group in
`^\+.*//\s*(ignore|nolint|no-check)`. -/
def suppressionWords : List (List Char) :=
  ["ignore".toList, "nolint".toList, "no-check".toList]

/-- After the two slashes: skip the whitespace, then one of the suppression
words must follow. -/
def afterSlashes (cs : List Char) : Bool :=
  suppressionWords.any fun w => w.isPrefixOf (cs.dropWhile isPyWs)

/-- Scan the rest of the current line (stopping at a newline, as `.` does)
for a `//` occurrence followed by a suppression directive. -/
def findSlashes : List Char → Bool
  | [] => false
  | c :: rest =>
    if c = '\n' then false
    else if c = '/' then
      (match rest with
        | c2 :: rest2 => (c2 == '/' && afterSlashes rest2) || findSlashes rest
        | [] => false)
    else findSlashes rest

/-- Scan the whole diff text for a line starting with `+` whose remainder
matches the suppression pattern; `atStart` records whether the current
position is the start of a line. -/
def scanAdded : Bool → List Char → Bool
  | _, [] => false
  | atStart, c :: rest =>
    (atStart && c == '+' && findSlashes rest) || scanAdded (c == '\n') rest

/-- Alternatives of the test/assertion-call group in
`^-.*(?:test\(|expect\(|assert)`. -/
def testCallWords : List (List Char) :=
  ["test(".toList, "expect(".toList, "assert".toList]

/-- Scan the rest of the current line for a test/assertion-call keyword. -/
def findTestCall : List Char → Bool
  | [] => false
  | c :: rest =>
    if c = '\n' then false
    else (testCallWords.any fun w => w.isPrefixOf (c :: rest)) || findTestCall rest

/-- Scan the whole diff text for a line starting with `-` whose remainder
contains a test/assertion-call keyword. -/
def scanRemoved : Bool → List Char → Bool
  | _, [] => false
  | atStart, c :: rest =>
    (atStart && c == '-' && findTestCall rest) || scanRemoved (c == '\n') rest

/-- `re.search(r"^\+.*//\s*(ignore|nolint|no-check)", diff_content, re.MULTILINE)`
as a Boolean (post_run_eval.py line 86). -/
def hasAddedSuppression (diff_content : String) : Bool :=
  scanAdded true diff_content.toList

/-- `re.search(r"^-.*(?:test\(|expect\(|assert)", diff_content, re.MULTILINE)`
as a Boolean (post_run_eval.py line 88). -/
def hasRemovedTestCall (diff_content : String) : Bool :=
  scanRemoved true diff_content.toList

/-- Integrity score (post_run_eval.py lines 85-89): start at 1.0, multiply
by 0.3 on an added suppression directive, then by 0.5 on a removed
test/assertion call. -/
def integrity (diff_content : String) : ℚ :=
  let base : ℚ := 1.0
  let afterSupp := if hasAddedSuppression diff_content then base * 0.3 else base
  if hasRemovedTestCall diff_content then afterSupp * 0.5 else afterSupp

/-- C4: integrity starts at 1.0, is multiplied by 0.3 when some added line
matches the suppression pattern and by 0.5 when some removed line matches
the test/assertion pattern; both together yield exactly 0.15; the score is
always in {1.0, 0.5, 0.3, 0.15}, hence in [0, 1]. -/
theorem integrity_multiplicative_discounts : ∀ d : String,
    (0 ≤ integrity d ∧ integrity d ≤ 1) ∧
    (integrity d = 1.0 ∨ integrity d = 0.5 ∨ integrity d = 0.3 ∨
     integrity d = 0.15) ∧
    (hasAddedSuppression d = true → hasRemovedTestCall d = true →
      integrity d = 0.15) ∧
    (hasAddedSuppression d = true → hasRemovedTestCall d = false →
      integrity d = 0.3) ∧
    (hasAddedSuppression d = false → hasRemovedTestCall d = true →
      integrity d = 0.5) ∧
    (hasAddedSuppression d = false → hasRemovedTestCall d = false →
      integrity d = 1.0) := by
  intro d
  cases h1 : hasAddedSuppression d <;> cases h2 : hasRemovedTestCall d <;>
    simp only [integrity, h1, h2, if_true, if_false, Bool.false_eq_true,
      false_implies, true_implies, implies_true, and_true, true_and] <;>
    norm_num

/-- Witness for C4: a diff adding a `// nolint` line and removing an
`assert` line scores exactly 0.15. -/
theorem integrity_multiplicative_discounts_witness :
    integrity "+x // nolint\n-assert y" = 0.15 :=
  (integrity_multiplicative_discounts "+x // nolint\n-assert y").2.2.1
    (by decide) (by decide)

/-! ## Judged scorer: response parsing (score_pr.py lines 177-196)

`re.search(r"\x60\x60\x60json\s*(.*?)\s*\x60\x60\x60", raw_response, re.DOTALL)`
is embedded as a scanner that finds the first fenced-json marker that is
followed by a closing fence; the lazy group together with the two greedy
whitespace runs yields the text strictly between marker and the first
closing fence, with surrounding whitespace stripped.  `json.loads` is an
external library call and is modelled as an oracle `String → Option J`
(`none` = the call raises). -/

/-- The backtick character. -/
def tick : Char := Char.ofNat 96

/-- The opening marker of a fenced json block: three backticks then `json`. -/
def fencedMarker : List Char := [tick, tick, tick, 'j', 's', 'o', 'n']

/-- Characters up to the first closing fence (three backticks), or `none`
when no closing fence exists in the remainder. -/
def contentUntilFence : List Char → Option (List Char)
  | c1 :: c2 :: c3 :: rest =>
    if c1 == tick && c2 == tick && c3 == tick then some []
    else (contentUntilFence (c2 :: c3 :: rest)).map (c1 :: ·)
  | _ => none

/-- Strip the whitespace consumed by the two `\s*` runs around the lazy
group. -/
def stripWsBoth (cs : List Char) : List Char :=
  ((cs.dropWhile isPyWs).reverse.dropWhile isPyWs).reverse

/-- Find the first fenced-json marker followed by a closing fence and
return the enclosed text; `none` when the pattern does not occur. -/
def extractFenced : List Char → Option (List Char)
  | [] => none
  | c :: rest =>
    if fencedMarker.isPrefixOf (c :: rest) then
      match contentUntilFence ((c :: rest).drop 7) with
      | some content => some (stripWsBoth content)
      | none => extractFenced rest
    else extractFenced rest

/-- The fenced-json search over the raw judge response (score_pr.py
line 180). -/
def extractFencedJson (raw_response : String) : Option String :=
  (extractFenced raw_response.toList).map fun cs => String.mk cs

/-- The parse step of the Judged Scorer (score_pr.py lines 180-185): use
the fenced block when present, otherwise parse the raw response; a parse
failure of `loads` (modelled as `none`) propagates as an error — there is
no surrounding handler, so the exception reaches the caller. -/
def parse_scores_json {J : Type} (loads : String → Option J)
    (raw_response : String) : Except Unit J :=
  match extractFencedJson raw_response with
  | some block =>
    match loads block with
    | some j => Except.ok j
    | none => Except.error ()
  | none =>
    match loads raw_response with
    | some j => Except.ok j
    | none => Except.error ()

/-- C5: when the response has no fenced json block and the raw text is not
itself valid structured data, the Judged Scorer's parse step yields an
error to the caller instead of any defaulted score set. -/
theorem judge_parse_failure_raises : ∀ (J : Type) (loads : String → Option J)
    (raw : String), extractFencedJson raw = none → loads raw = none →
    parse_scores_json loads raw = Except.error () := by
  intro J loads raw hfence hload
  unfold parse_scores_json
  rw [hfence, hload]

/-- Witness for C5: a response with no fence at all and a loader that
rejects it produces an error. -/
theorem judge_parse_failure_raises_witness :
    parse_scores_json (J := Unit) (fun _ => none) "no structured block here" =
      Except.error () :=
  judge_parse_failure_raises Unit (fun _ => none) "no structured block here"
    (by decide) rfl

/-! ## Judged scorer: dimension extraction (score_pr.py lines 189-196) -/

/-- One entry of the parsed judge response: the optional `score` field
(numeric when present) and the optional `reason` field. -/
structure JEntry where
  score : Option ℚ
  reason : Option String

/-- `entry = scores_json.get(key, {})`, `float(entry.get("score", 0.0))`,
`entry.get("reason", "")` for one dimension key; the parsed response is the
map `scores_json`. -/
def extractDim (scores_json : String → Option JEntry) (key : String) :
    ℚ × String :=
  let entry := (scores_json key).getD ⟨none, none⟩
  (entry.score.getD 0.0, entry.reason.getD "")

/-- The fixed list of dimension keys iterated by the extraction loop. -/
def dimKeys : List String :=
  ["requirements_met", "acceptance_criteria", "no_regressions",
   "code_quality", "completeness", "overall"]

/-- The extraction loop: one `(key, score, reason)` triple per dimension. -/
def extractScores (scores_json : String → Option JEntry) :
    List (String × ℚ × String) :=
  dimKeys.map fun k => (k, extractDim scores_json k)

/-- C10: when the parsed response omits a dimension entry or its score
field, the extraction records 0.0 (and an empty reason for a missing
entry) without raising, indistinguishable from a judge-returned zero. -/
theorem judged_missing_dimension_defaults :
    ∀ (scores_json : String → Option JEntry) (k : String), k ∈ dimKeys →
    ((scores_json k = none → extractDim scores_json k = (0.0, "")) ∧
     (∀ r, scores_json k = some ⟨none, r⟩ →
        (extractDim scores_json k).1 = 0.0) ∧
     extractDim (fun _ => some ⟨some 0.0, some ""⟩) k = (0.0, "")) := by
  intro scores_json k _
  refine ⟨fun h => ?_, fun r h => ?_, rfl⟩ <;> simp [extractDim, h]

/-- Witness for C10 at the `overall` key and an empty response map. -/
theorem judged_missing_dimension_defaults_witness :
    extractDim (fun _ => none) "overall" = (0.0, "") :=
  (judged_missing_dimension_defaults (fun _ => none) "overall" (by decide)).1 rfl

/-! ## CI hook checks and exit status (ci_eval.py lines 33-45, 71-79, 123-125) -/

/-- Outcome of one `subprocess.check_output` call inside `run_check`: the
command either exits 0 with some output, or fails with a
`CalledProcessError` carrying its output — `run_check` catches exactly
that, so a failing check never escapes as an exception. -/
inductive CheckOutcome
  | ok (output : String)
  | calledProcessErr (output : String)

/-- The score `run_check` records for an outcome (ci_eval.py lines 37/41):
1.0 on success, 0.0 on a caught `CalledProcessError`. -/
def run_check_score : CheckOutcome → ℚ
  | CheckOutcome.ok _ => 1.0
  | CheckOutcome.calledProcessErr _ => 0.0

/-- The `checks` mapping accumulated by the CI hook: each executed check's
score in order, then the `diff_precision` entry added afterwards
(ci_eval.py lines 36-41 and 72-79).  The check names used by the hook
(analyze, build_ios, test, lint, build) are all distinct from
`diff_precision`, so an association list is a faithful model of the dict. -/
def ciChecks (results : List (String × CheckOutcome)) (total_diff : ℕ) :
    List (String × ℚ) :=
  (results.map fun p => (p.1, run_check_score p.2)) ++
    [("diff_precision", diff_precision total_diff)]

/-- The final exit status (ci_eval.py lines 124-125): 1 when any check
other than `diff_precision` scored 0.0, otherwise 0 (the script falls off
the end). -/
def ciExitCode (checks : List (String × ℚ)) : ℕ :=
  if (checks.filter fun p => decide ¬p.1 = "diff_precision").any
      (fun p => decide (p.2 = 0.0)) then 1 else 0

lemma ciExit_any_iff (results : List (String × CheckOutcome)) (t : ℕ)
    (h : ∀ p ∈ results, ¬p.1 = "diff_precision") :
    ((ciChecks results t).filter fun p => decide ¬p.1 = "diff_precision").any
        (fun p => decide (p.2 = 0.0)) = true ↔
      ∃ p ∈ results, run_check_score p.2 = 0.0 := by
  simp only [ciChecks, List.any_filter, List.any_append, List.any_map,
    List.any_cons, List.any_nil, Function.comp_apply, Bool.or_false,
    Bool.or_eq_true, List.any_eq_true, Bool.and_eq_true, decide_eq_true_eq]
  constructor
  · rintro (⟨p, hp, _, hz⟩ | ⟨hne, _⟩)
    · obtain ⟨q, hq, rfl⟩ := List.mem_map.mp hp
      exact ⟨q, hq, hz⟩
    · simp at hne
  · rintro ⟨p, hp, hz⟩
    exact Or.inl ⟨(p.1, run_check_score p.2), List.mem_map.mpr ⟨p, hp, rfl⟩,
      h p hp, hz⟩

/-- C8: the CI hook's scoring is total (every check outcome, pass or
caught failure, yields a score of 1.0 or 0.0 — no unhandled exception
path), and the exit status is nonzero exactly when some check other than
diff_precision scored 0.0. -/
theorem ci_exit_code_iff_failed_check :
    ∀ (results : List (String × CheckOutcome)) (total_diff : ℕ),
    (∀ p ∈ results, ¬p.1 = "diff_precision") →
    ((∀ o : CheckOutcome, run_check_score o = 1.0 ∨ run_check_score o = 0.0) ∧
     (ciExitCode (ciChecks results total_diff) = 1 ↔
        ∃ p ∈ results, run_check_score p.2 = 0.0) ∧
     (ciExitCode (ciChecks results total_diff) = 0 ↔
        ¬∃ p ∈ results, run_check_score p.2 = 0.0)) := by
  intro results t h
  have hiff := ciExit_any_iff results t h
  refine ⟨fun o => ?_, ?_, ?_⟩
  · cases o <;> simp [run_check_score]
  · unfold ciExitCode
    split_ifs with hc
    · exact iff_of_true rfl (hiff.mp hc)
    · exact iff_of_false (fun hf => hf) fun hex => hc (hiff.mpr hex)
  · unfold ciExitCode
    split_ifs with hc
    · exact iff_of_false (fun hf => hf) fun hn => hn (hiff.mp hc)
    · exact iff_of_true rfl fun hex => hc (hiff.mpr hex)

/-- Witness for C8: a failing `test` check exits 1; an all-passing run
exits 0. -/
theorem ci_exit_code_iff_failed_check_witness :
    ciExitCode (ciChecks [("test", CheckOutcome.calledProcessErr "boom")] 10) = 1 ∧
    ciExitCode (ciChecks [("lint", CheckOutcome.ok "fine")] 10) = 0 := by
  have hname1 : ∀ p ∈ [("test", CheckOutcome.calledProcessErr "boom")],
      ¬(p : String × CheckOutcome).1 = "diff_precision" := by
    intro p hp
    rw [List.mem_singleton] at hp
    rw [hp]
    decide
  have hname2 : ∀ p ∈ [("lint", CheckOutcome.ok "fine")],
      ¬(p : String × CheckOutcome).1 = "diff_precision" := by
    intro p hp
    rw [List.mem_singleton] at hp
    rw [hp]
    decide
  constructor
  · exact (ci_exit_code_iff_failed_check _ 10 hname1).2.1.mpr
      ⟨("test", CheckOutcome.calledProcessErr "boom"), List.mem_singleton.mpr rfl, rfl⟩
  · refine (ci_exit_code_iff_failed_check _ 10 hname2).2.2.mpr ?_
    rintro ⟨p, hp, hz⟩
    rw [List.mem_singleton] at hp
    rw [hp] at hz
    norm_num [run_check_score] at hz

/-! ## Score ranges (claim C1) -/

/-- C1 (amended): every deterministic score — build_passes, efficiency,
diff_precision, integrity, and the CI hook's check scores — lies in
[0.0, 1.0]; the Judged Scorer's extracted scores, however, are the judge's
values passed through unvalidated (defaulting to 0.0 when absent), so they
lie in [0.0, 1.0] only when the judge's values do. -/
theorem deterministic_score_ranges :
    ∀ (status d : String) (i : ℤ) (ins del : ℕ) (o : CheckOutcome)
      (scores_json : String → Option JEntry) (k : String),
    (0 ≤ build_score status ∧ build_score status ≤ 1) ∧
    (0 ≤ efficiency i ∧ efficiency i ≤ 1) ∧
    (0 ≤ diff_score (ins + del) ∧ diff_score (ins + del) ≤ 1) ∧
    (0 ≤ integrity d ∧ integrity d ≤ 1) ∧
    (0 ≤ run_check_score o ∧ run_check_score o ≤ 1) ∧
    (scores_json k = none → (extractDim scores_json k).1 = 0.0) ∧
    (∀ (q : ℚ) (r : Option String), scores_json k = some ⟨some q, r⟩ →
      (extractDim scores_json k).1 = q) := by
  intro status d i ins del o scores_json k
  refine ⟨?_, ?_, ?_, ((integrity_multiplicative_discounts d).1), ?_,
    fun h => ?_, fun q r h => ?_⟩
  · unfold build_score
    split_ifs <;> norm_num
  · unfold efficiency
    split_ifs <;> norm_num
  · unfold diff_score
    split_ifs <;> norm_num
  · cases o <;> norm_num [run_check_score]
  · simp [extractDim, h]
  · simp [extractDim, h]

/-- Witness for C1's judged-score pass-through: an absent map yields 0.0,
and a judge value of 0.9 is extracted verbatim. -/
theorem deterministic_score_ranges_witness :
    (extractDim (fun _ => none) "code_quality").1 = 0.0 ∧
    (extractDim (fun _ => some ⟨some 0.9, some "good"⟩) "code_quality").1 = 0.9 :=
  ⟨(deterministic_score_ranges "s" "" 0 0 0 (CheckOutcome.ok "")
      (fun _ => none) "code_quality").2.2.2.2.2.1 rfl,
   (deterministic_score_ranges "s" "" 0 0 0 (CheckOutcome.ok "")
      (fun _ => some ⟨some 0.9, some "good"⟩) "code_quality").2.2.2.2.2.2
      0.9 (some "good") rfl⟩

/-- Counterexample to C1 as stated: a judge response whose `overall` entry
carries the score 1.5 is extracted and logged as 1.5, outside [0.0, 1.0] —
`float(entry.get("score", 0.0))` performs no range validation. -/
theorem judged_score_out_of_range :
    (extractDim (fun _ => some ⟨some 1.5, some "inflated"⟩) "overall").1 = 1.5 ∧
    ¬(extractDim (fun _ => some ⟨some 1.5, some "inflated"⟩) "overall").1 ≤ 1 := by
  constructor
  · rfl
  · norm_num [extractDim]

/-! ## Diff inspector (post_run_eval.py lines 54-73, ci_eval.py lines 60-69)

The two `git` invocations are external; each is modelled as an
`Except Unit String` (`Except.error` = the subprocess raised).  The regex
count extraction `re.search(r"(\d+) insertion", stat)` is embedded as a
scanner for the leftmost maximal digit run directly followed by the
keyword. -/

/-- Numeric value of a digit run, as Python `int` on the regex group. -/
def digitsToNat (ds : List Char) : ℕ :=
  ds.foldl (fun n c => 10 * n + (c.toNat - 48)) 0

/-- `re.search(r"(\d+) <keyword>", stat)`: find the leftmost position where
a maximal digit run is directly followed by the keyword, returning its
value. -/
def findCountBefore (kw : List Char) : List Char → Option ℕ
  | [] => none
  | c :: rest =>
    if c.isDigit then
      (if kw.isPrefixOf ((c :: rest).dropWhile Char.isDigit)
       then some (digitsToNat ((c :: rest).takeWhile Char.isDigit))
       else findCountBefore kw rest)
    else findCountBefore kw rest

/-- `int(m.group(1)) if m else 0` for the `"(\d+) insertion"` pattern
(post_run_eval.py lines 62-63, ci_eval.py line 66). -/
def parse_insertions (stat : String) : ℕ :=
  (findCountBefore " insertion".toList stat.toList).getD 0

/-- Same for `"(\d+) deletion"` (post_run_eval.py lines 64-65,
ci_eval.py line 67). -/
def parse_deletions (stat : String) : ℕ :=
  (findCountBefore " deletion".toList stat.toList).getD 0

/-- Same for `"(\d+) file"` (ci_eval.py line 65). -/
def parse_files_changed (stat : String) : ℕ :=
  (findCountBefore " file".toList stat.toList).getD 0

/-- The post-run scorer's diff gathering (post_run_eval.py lines 54-73):
`diff_lines = 0` and `diff_content = ""` initially; inside one `try`, the
stat call is made and parsed into `diff_lines`, then the full-diff call
fills `diff_content`; the bare `except` keeps whatever was assigned before
the failing call. -/
def inspectDiff (statResult diffResult : Except Unit String) : ℕ × String :=
  match statResult with
  | Except.error _ => (0, "")
  | Except.ok stat_output =>
    let insertions := parse_insertions stat_output
    let deletions := parse_deletions stat_output
    let diff_lines := insertions + deletions
    match diffResult with
    | Except.error _ => (diff_lines, "")
    | Except.ok diff_content => (diff_lines, diff_content)

/-- The CI hook's diff metrics (ci_eval.py lines 60-69): a single stat call
parsed inside one `try`; on any error all three counts are zero. -/
def ciDiffMetrics (statResult : Except Unit String) : ℕ × ℕ × ℕ :=
  match statResult with
  | Except.error _ => (0, 0, 0)
  | Except.ok stat =>
    (parse_files_changed stat, parse_insertions stat, parse_deletions stat)

/-- C6 (amended): a failing stat invocation yields all-zero counts with an
empty diff string (in both scorers), and a stat text lacking the insertion
or deletion pattern contributes a zero count; but in the post-run scorer a
failure of the diff-text invocation alone yields the empty diff string
while keeping the counts already parsed from the successful stat call. -/
theorem diff_inspector_degraded_mode :
    ∀ (diffResult : Except Unit String) (s stat : String),
    (inspectDiff (Except.error ()) diffResult = (0, "")) ∧
    (ciDiffMetrics (Except.error ()) = (0, 0, 0)) ∧
    (findCountBefore " insertion".toList s.toList = none →
      parse_insertions s = 0) ∧
    (findCountBefore " deletion".toList s.toList = none →
      parse_deletions s = 0) ∧
    (inspectDiff (Except.ok stat) (Except.error ()) =
      (parse_insertions stat + parse_deletions stat, "")) := by
  intro diffResult s stat
  refine ⟨rfl, rfl, fun h => ?_, fun h => ?_, rfl⟩
  · unfold parse_insertions
    rw [h]
    rfl
  · unfold parse_deletions
    rw [h]
    rfl

/-- Witness for C6: a stat text with neither pattern parses to zero
counts. -/
theorem diff_inspector_degraded_mode_witness :
    parse_insertions "malformed stat output" = 0 ∧
    parse_deletions "malformed stat output" = 0 :=
  ⟨(diff_inspector_degraded_mode (Except.error ()) "malformed stat output"
      "").2.2.1 (by decide),
   (diff_inspector_degraded_mode (Except.error ()) "malformed stat output"
      "").2.2.2.1 (by decide)⟩

/-- Counterexample to C6 as stated: when the stat call succeeds with
"3 insertions(+), 2 deletions(-)" but the diff-text call fails, the
post-run scorer reports diff_lines = 5 with an empty diff — not the
all-zero summary the claim requires for every failing invocation. -/
theorem diff_inspector_partial_counts :
    inspectDiff (Except.ok "2 files changed, 3 insertions(+), 2 deletions(-)")
        (Except.error ()) = (5, "") ∧
    (5 : ℕ) ≠ 0 := by
  constructor
  · decide
  · decide

/-! ## Regression replayer: per-row dispatch (regression_eval.py lines 90-110) -/

/-- Outcome of the `subprocess.run` dispatch of the external task runner:
normal completion with captured stdout, a `TimeoutExpired`, or any other
exception — exactly the three arms of the try/except at lines 90-99. -/
inductive RunnerOutcome
  | completed (stdout : String)
  | timeoutExpired
  | raisedExn

/-- Strip ASCII whitespace from both ends, as Python `str.strip()`. -/
def pyStrip (s : String) : String :=
  String.mk (((s.toList.dropWhile isPyWs).reverse.dropWhile isPyWs).reverse)

/-- `s.split("\n")[-1]`: the last newline-separated segment. -/
def lastSplitSegment (s : String) : String :=
  ((s.splitOn "\n").getLast?).getD ""

/-- `ralph_status` (regression_eval.py lines 95-99): the invocation status
derived from the outcome — the last stdout line on completion (or "error"
for empty stdout), "timeout" on `TimeoutExpired`, "error" on any other
exception.  Note: this value is never read again after being assigned. -/
def ralph_status : RunnerOutcome → String
  | RunnerOutcome.completed stdout =>
    if stdout = "" then "error" else lastSplitSegment (pyStrip stdout)
  | RunnerOutcome.timeoutExpired => "timeout"
  | RunnerOutcome.raisedExn => "error"

/-- The parsed `result.json` of the most-recently-created run directory:
the optional `status` and `iterations` fields read with
`run_result.get("status", "error")` and
`int(run_result.get("iterations", 0))`. -/
structure ResultJson where
  statusField : Option String
  iterationsField : Option ℤ

/-- One replay row (regression_eval.py lines 90-110): dispatch the runner,
compute the (unused) invocation status, then resolve the recorded
`(new_status, new_iters)` from the latest run directory's result file —
`("error", 0)` when no run directory or no result file exists. -/
def processRow (runner : RunnerOutcome) (latestResult : Option ResultJson) :
    String × ℤ :=
  let _invocation_status := ralph_status runner
  match latestResult with
  | none => ("error", 0)
  | some r => (r.statusField.getD "error", r.iterationsField.getD 0)

/-- The replay loop over all fetched rows: every row is processed, none is
skipped or aborted by another row's outcome. -/
def replayStatuses (rows : List (RunnerOutcome × Option ResultJson)) :
    List (String × ℤ) :=
  rows.map fun p => processRow p.1 p.2

/-- C7 (amended): the runner-invocation status is computed as "timeout" on
a timeout and "error" on any other exception, but it is dead — the row's
recorded status and iteration count always come from the latest run
directory's result file, with absence of a result file giving ("error", 0);
every fetched row is processed regardless of the others' outcomes. -/
theorem replay_row_status_resolution :
    ∀ (r r2 : RunnerOutcome) (latest : Option ResultJson)
      (rows : List (RunnerOutcome × Option ResultJson)),
    ralph_status RunnerOutcome.timeoutExpired = "timeout" ∧
    ralph_status RunnerOutcome.raisedExn = "error" ∧
    processRow r latest = processRow r2 latest ∧
    processRow r none = ("error", 0) ∧
    (∀ (st : String) (its : ℤ),
      processRow r (some ⟨some st, some its⟩) = (st, its)) ∧
    (replayStatuses rows).length = rows.length := by
  intro r r2 latest rows
  refine ⟨rfl, rfl, ?_, rfl, fun st its => rfl, List.length_map rows _⟩
  cases latest <;> rfl

/-- Counterexample to C7 as stated: a row whose runner dispatch timed out
is recorded with the status found in the latest run directory's result
file ("success" here), not with status "timeout" — the computed invocation
status is discarded. -/
theorem replay_timeout_status_ignored :
    processRow RunnerOutcome.timeoutExpired (some ⟨some "success", some 2⟩) =
      ("success", 2) ∧
    ralph_status RunnerOutcome.timeoutExpired = "timeout" ∧
    ("success" : String) ≠ "timeout" := by
  refine ⟨rfl, rfl, ?_⟩
  decide

/-! ## Regression replayer: limit and dry-run (regression_eval.py lines 28-55) -/

/-- Python slice `rows[:k]` for an `int` stop value: a non-negative stop
takes the first `k` elements; a negative stop drops `-k` from the end. -/
def pySliceStop {α : Type} (rows : List α) (k : ℤ) : List α :=
  if 0 ≤ k then rows.take k.toNat else rows.take (rows.length - (-k).toNat)

/-- `if args.limit: rows = rows[:args.limit]` (regression_eval.py
lines 41-42): `--limit` is absent (`None`) or an `int`; the truthiness test
means a limit of 0 leaves the row list untouched. -/
def selectRows {α : Type} (rows : List α) (limit : Option ℤ) : List α :=
  match limit with
  | none => rows
  | some k => if k = 0 then rows else pySliceStop rows k

/-- The title printed per row in dry-run mode (regression_eval.py
line 52): first line of the input, `lstrip("# ")`, then `strip()`. -/
def pyTitle (input : String) : String :=
  pyStrip (String.mk
    (((input.splitOn "\n").headD "").toList.dropWhile fun c => c == '#' || c == ' '))

/-- The titles printed by the dry-run loop (regression_eval.py
lines 50-55): one per selected row, after which the process exits. -/
def printedTitles (rows : List String) (limit : Option ℤ) : List String :=
  (selectRows rows limit).map pyTitle

/-- Number of runner dispatches: zero in dry-run mode (the loop at line 75
is never reached), one per selected row otherwise. -/
def dispatchCount (rows : List String) (limit : Option ℤ) (dry_run : Bool) : ℕ :=
  if dry_run then 0 else (selectRows rows limit).length

/-- C9 (amended): with a positive limit k the replayer keeps exactly
min(k, n) of the n fetched rows; with no limit — or with limit 0, which the
truthiness test treats as unset — it keeps all n; dry-run prints exactly
one title per kept row and performs zero runner dispatches. -/
theorem replay_limit_and_dry_run :
    ∀ (rows : List String) (k : ℤ) (limit : Option ℤ),
    (1 ≤ k → (selectRows rows (some k)).length = min k.toNat rows.length) ∧
    selectRows rows none = rows ∧
    selectRows rows (some 0) = rows ∧
    dispatchCount rows limit true = 0 ∧
    (printedTitles rows limit).length = (selectRows rows limit).length ∧
    dispatchCount rows limit false = (selectRows rows limit).length := by
  intro rows k limit
  refine ⟨fun hk => ?_, rfl, rfl, rfl, List.length_map _ _, rfl⟩
  simp only [selectRows, pySliceStop]
  rw [if_neg (show ¬k = 0 by omega), if_pos (show (0 : ℤ) ≤ k by omega)]
  exact List.length_take k.toNat rows

/-- Witness for C9: the spec scenario — a 3-row dataset replayed dry-run
with limit 2 prints exactly 2 titles and dispatches the runner zero
times. -/
theorem replay_limit_and_dry_run_witness :
    (printedTitles ["# A\nbody", "# B\nbody", "# C\nbody"] (some 2)).length = 2 ∧
    dispatchCount ["# A\nbody", "# B\nbody", "# C\nbody"] (some 2) true = 0 := by
  have h := replay_limit_and_dry_run ["# A\nbody", "# B\nbody", "# C\nbody"]
    2 (some 2)
  refine ⟨?_, h.2.2.2.1⟩
  rw [h.2.2.2.2.1, h.1 (by norm_num)]
  decide

/-- Counterexample to C9 as stated: requesting limit 0 on a 1-row dataset
processes 1 row, not min(0, 1) = 0 — `if args.limit:` is false for 0, so
no truncation happens. -/
theorem replay_limit_zero_processes_all :
    (selectRows ["only task"] (some 0)).length = 1 ∧
    min ((0 : ℤ).toNat) 1 = 0 ∧ (1 : ℕ) ≠ 0 := by
  refine ⟨rfl, rfl, ?_⟩
  decide

end Factory
